import Mathlib

/-!
Verification of the CLIP similarity service (src/similarity_service.py).

The service is embedded shallowly: the external libraries (torch, PIL,
transformers, numpy) appear as environment records of Except-returning
functions, embedding vectors are lists of reals, and each HTTP handler
becomes a pure Lean function from the process state and the request to a
response.  Exceptions of the Python code are Except.error values; the
try/except blocks of the source become matches on those values.
-/

namespace SimilarityService

/-- Compute backend: the three strings that get_optimal_device can return. -/
inductive Device where
  | mps
  | cuda
  | cpu
deriving DecidableEq

/-- Python str(device): the backend name as a string. -/
def Device.str : Device → String
  | .mps => "mps"
  | .cuda => "cuda"
  | .cpu => "cpu"

/-- Facts about the torch runtime that the service reads:
torch.backends.mps.is_available(), torch.backends.mps.is_built(),
torch.cuda.is_available(), torch.__version__. -/
structure TorchEnv where
  mps_is_available : Bool
  mps_is_built : Bool
  cuda_is_available : Bool
  version : String

/-- get_optimal_device (similarity_service.py lines 22-38): MPS when both
available and built, else CUDA when available, else CPU.  Total: every
branch returns a Device. -/
def get_optimal_device (t : TorchEnv) : Device :=
  if t.mps_is_available && t.mps_is_built then Device.mps
  else if t.cuda_is_available then Device.cuda
  else Device.cpu

/-- Sum of squares of a vector of reals. -/
def sumSq (v : List ℝ) : ℝ := (v.map (fun x => x * x)).sum

/-- Euclidean norm of a vector, features.norm(dim=-1) for the single row. -/
noncomputable def euclNorm (v : List ℝ) : ℝ := Real.sqrt (sumSq v)

/-- Line 87: embedding = features / features.norm(dim=-1, keepdim=True),
the raw feature vector divided elementwise by its Euclidean norm.  No
epsilon guard, exactly as in the source. -/
noncomputable def l2normalize (v : List ℝ) : List ℝ :=
  v.map (fun x => x / euclNorm v)

/-- Behavior of the external libraries used per item by generate_embeddings.
Img and Ten abstract the PIL image and the model-ready tensor.  Each step
may raise, modelled by Except:
* openImage: Image.open(path).convert("RGB") (line 81);
* preprocess: processor(images=image, return_tensors="pt").to(device) (line 82);
* getImageFeatures: model.get_image_features(**inputs) (line 85), giving the
  single raw feature row as a list of reals. -/
structure ClipEnv (Img Ten : Type) where
  openImage : String → Except String Img
  preprocess : Img → Except String Ten
  getImageFeatures : Ten → Except String (List ℝ)

/-- Body of the try block of generate_embeddings (lines 80-88) for one path:
open, preprocess, forward pass, then L2-normalize; the .cpu().numpy().tolist()
step is the identity in this model.  Any failing step short-circuits
with its exception. -/
noncomputable def processItem {Img Ten : Type} (env : ClipEnv Img Ten) (path : String) :
    Except String (List ℝ) :=
  match env.openImage path with
  | Except.error e => Except.error e
  | Except.ok image =>
    match env.preprocess image with
    | Except.error e => Except.error e
    | Except.ok inputs =>
      match env.getImageFeatures inputs with
      | Except.error e => Except.error e
      | Except.ok features => Except.ok (l2normalize features)

/-- generate_embeddings (lines 74-93): loop over the paths in order,
appending the normalized embedding on success and None on any exception
for that item (the except branch, lines 89-91). -/
noncomputable def generate_embeddings {Img Ten : Type} (env : ClipEnv Img Ten) :
    List String → List (Option (List ℝ))
  | [] => []
  | path :: rest =>
    (match processItem env path with
      | Except.ok emb => some emb
      | Except.error _ => none) :: generate_embeddings env rest

/-- Dot product of two real vectors of equal length. -/
def dotList (xs ys : List ℝ) : ℝ :=
  (List.zipWith (fun a b => a * b) xs ys).sum

/-- np.dot on two one-dimensional arrays: the inner product when the lengths
match, and a ValueError (shapes not aligned) otherwise. -/
def npDot (xs ys : List ℝ) : Except String ℝ :=
  if xs.length = ys.length then Except.ok (dotList xs ys)
  else Except.error "shapes not aligned"

/-- calculate_similarity (lines 95-104): similarity = float(np.dot(emb1, emb2)).
The handler has no try/except, so the numpy shape error propagates out of
the handler (the framework turns it into an error response for this
request; the process keeps running). -/
def calculate_similarity (emb1 emb2 : List ℝ) : Except String ℝ :=
  npDot emb1 emb2

/-- Module-level process state after a successful startup: the selected
device and the two global handles.  The model handle is its
get_image_features behavior, the processor handle its preprocessing
behavior (with .to(device) folded in). -/
structure ServiceState (Img Ten : Type) where
  device : Device
  model : Ten → Except String (List ℝ)
  processor : Img → Except String Ten

/-- Response body of the /health endpoint (lines 106-116). -/
structure HealthResponse where
  status : String
  device : String
  device_type : String
  mps_available : Bool
  cuda_available : Bool
  pytorch_version : String

/-- health (lines 106-116): always the literal "healthy" plus device and
runtime information read from the process state and the torch runtime. -/
def health {Img Ten : Type} (t : TorchEnv) (st : ServiceState Img Ten) :
    HealthResponse :=
  { status := "healthy",
    device := st.device.str,
    device_type := st.device.str,
    mps_available := t.mps_is_available,
    cuda_available := t.cuda_is_available,
    pytorch_version := t.version }

/-- The three operations of the service boundary. -/
inductive Request where
  | embeddings : List String → Request
  | similarity : List ℝ → List ℝ → Request
  | health : Request

/-- The corresponding response bodies. -/
inductive Response where
  | embeddings : List (Option (List ℝ)) → Response
  | similarity : Except String ℝ → Response
  | health : HealthResponse → Response

/-- The pipeline environment that the handlers assemble from the globals:
PIL.Image.open from the image library, the processor and model handles
from the process state. -/
def clipEnvOf {Img Ten : Type} (pil : String → Except String Img)
    (st : ServiceState Img Ten) : ClipEnv Img Ten :=
  { openImage := pil, preprocess := st.processor, getImageFeatures := st.model }

/-- Dispatch of one request to its handler.  The handlers only read the
globals (device, model, processor); the state component of the result is
what the handler leaves behind, and the source contains no assignment to
any of the globals. -/
noncomputable def handleRequest {Img Ten : Type} (pil : String → Except String Img)
    (t : TorchEnv) (st : ServiceState Img Ten) :
    Request → Response × ServiceState Img Ten
  | Request.embeddings paths =>
      (Response.embeddings (generate_embeddings (clipEnvOf pil st) paths), st)
  | Request.similarity a b =>
      (Response.similarity (calculate_similarity a b), st)
  | Request.health =>
      (Response.health (health t st), st)

/-- External operations of the startup block (lines 46-65):
CLIPModel.from_pretrained, CLIPProcessor.from_pretrained, model.to(device)
and model.eval(), each of which may raise.  The loaded model is its
get_image_features behavior, the processor its preprocessing behavior. -/
structure StartupEnv (Img Ten : Type) where
  torch : TorchEnv
  fromPretrainedModel : Except String (Ten → Except String (List ℝ))
  fromPretrainedProcessor : Except String (Img → Except String Ten)
  toDevice : (Ten → Except String (List ℝ)) → Device →
    Except String (Ten → Except String (List ℝ))
  evalMode : (Ten → Except String (List ℝ)) → Ten → Except String (List ℝ)

/-- Body of the startup try block (lines 46-60): select the device, load
model and processor, move the model to the device, set eval mode. -/
def startupAttempt {Img Ten : Type} (env : StartupEnv Img Ten) :
    Except String (ServiceState Img Ten) :=
  match env.fromPretrainedModel with
  | Except.error e => Except.error e
  | Except.ok model =>
    match env.fromPretrainedProcessor with
    | Except.error e => Except.error e
    | Except.ok processor =>
      match env.toDevice model (get_optimal_device env.torch) with
      | Except.error e => Except.error e
      | Except.ok moved =>
        Except.ok { device := get_optimal_device env.torch,
                    model := env.evalMode moved, processor := processor }

/-- Startup with its except branch (lines 62-65): any exception in the try
block leads to sys.exit(1), embedded as Except.error 1 (the nonzero process
exit status); only Except.ok yields a ServiceState, and only a ServiceState
can be passed to handleRequest, so a failed startup never serves. -/
def startup {Img Ten : Type} (env : StartupEnv Img Ten) :
    Except Nat (ServiceState Img Ten) :=
  match startupAttempt env with
  | Except.ok st => Except.ok st
  | Except.error _ => Except.error 1

/-- Concrete pipeline environment where every step succeeds and the encoder
returns the raw feature row [3, 4]. -/
noncomputable def envGood : ClipEnv Unit Unit :=
  { openImage := fun _ => Except.ok (),
    preprocess := fun _ => Except.ok (),
    getImageFeatures := fun _ => Except.ok [3, 4] }

/-- Concrete pipeline environment where opening the image fails for every
path, as for a missing file. -/
noncomputable def envOpenFails : ClipEnv Unit Unit :=
  { openImage := fun _ => Except.error "No such file or directory",
    preprocess := fun _ => Except.ok (),
    getImageFeatures := fun _ => Except.ok [3, 4] }

/-- Concrete pipeline environment whose encoder returns the all-zero
feature row [0, 0], the degenerate input of the normalization step. -/
noncomputable def envZero : ClipEnv Unit Unit :=
  { openImage := fun _ => Except.ok (),
    preprocess := fun _ => Except.ok (),
    getImageFeatures := fun _ => Except.ok [0, 0] }

/-- Concrete startup environment where downloading the model fails. -/
noncomputable def envLoadFails : StartupEnv Unit Unit :=
  { torch := { mps_is_available := false, mps_is_built := false,
               cuda_is_available := false, version := "2.1.0" },
    fromPretrainedModel := Except.error "network fetch failure",
    fromPretrainedProcessor := Except.ok (fun _ => Except.ok ()),
    toDevice := fun m _ => Except.ok m,
    evalMode := fun m => m }


lemma generate_embeddings_length {Img Ten : Type} (env : ClipEnv Img Ten)
    (paths : List String) :
    (generate_embeddings env paths).length = paths.length := by
  induction paths with
  | nil => rfl
  | cons p rest ih => simp [generate_embeddings, ih]

lemma generate_embeddings_get? {Img Ten : Type} (env : ClipEnv Img Ten)
    (paths : List String) (i : ℕ) :
    (generate_embeddings env paths).get? i
      = (paths.get? i).map (fun p => (processItem env p).toOption) := by
  induction paths generalizing i with
  | nil => simp [generate_embeddings]
  | cons p rest ih =>
    cases i with
    | zero =>
      cases h : processItem env p <;>
        simp [generate_embeddings, h, Except.toOption]
    | succ n => simpa [generate_embeddings] using ih n

/-- C1: the output of generate_embeddings has the same length as the input
list of paths, and the entry at every position i is exactly the result of
processing the path at position i (the embedding on success, the null
marker on failure); nothing is dropped or reordered. -/
theorem embeddings_positionally_aligned {Img Ten : Type} (env : ClipEnv Img Ten)
    (paths : List String) :
    (generate_embeddings env paths).length = paths.length ∧
    ∀ i : ℕ, (generate_embeddings env paths).get? i
      = (paths.get? i).map (fun p => (processItem env p).toOption) :=
  ⟨generate_embeddings_length env paths, fun i => generate_embeddings_get? env paths i⟩

/-- C2: when processing the item at position i raises an exception, the
null marker is recorded at position i, the batch still has full length,
and every position of the output is still the result of processing its own
path, so the failure neither aborts the batch nor propagates. -/
theorem failed_item_isolated {Img Ten : Type} (env : ClipEnv Img Ten)
    (paths : List String) (i : ℕ) (p : String) (e : String)
    (hp : paths.get? i = some p) (he : processItem env p = Except.error e) :
    (generate_embeddings env paths).get? i = some none ∧
    (generate_embeddings env paths).length = paths.length ∧
    ∀ j : ℕ, (generate_embeddings env paths).get? j
      = (paths.get? j).map (fun q => (processItem env q).toOption) := by
  refine ⟨?_, generate_embeddings_length env paths,
    fun j => generate_embeddings_get? env paths j⟩
  rw [generate_embeddings_get?, hp]
  simp [he, Except.toOption]

/-- Witness for C2 at the concrete failing environment: a batch of one
missing file yields the singleton output consisting of the null marker. -/
theorem failed_item_isolated_witness :
    (generate_embeddings envOpenFails ["missing.jpg"]).get? 0 = some none ∧
    (generate_embeddings envOpenFails ["missing.jpg"]).length = (["missing.jpg"] : List String).length ∧
    ∀ j : ℕ, (generate_embeddings envOpenFails ["missing.jpg"]).get? j
      = ((["missing.jpg"] : List String).get? j).map (fun q => (processItem envOpenFails q).toOption) :=
  failed_item_isolated envOpenFails ["missing.jpg"] 0 "missing.jpg"
    "No such file or directory" rfl rfl

/-- C10: on the empty batch, generate_embeddings returns the empty list of
embeddings, not an error. -/
theorem empty_batch_empty_result {Img Ten : Type} (env : ClipEnv Img Ten) :
    generate_embeddings env ([] : List String) = ([] : List (Option (List ℝ))) :=
  rfl

lemma sumSq_nonneg (v : List ℝ) : 0 ≤ sumSq v := by
  induction v with
  | nil => simp [sumSq]
  | cons x xs ih =>
    have hx := mul_self_nonneg x
    simp only [sumSq, List.map_cons, List.sum_cons] at *
    linarith

lemma sumSq_map_div (v : List ℝ) (c : ℝ) :
    sumSq (v.map (fun x => x / c)) = sumSq v / (c * c) := by
  induction v with
  | nil => simp [sumSq]
  | cons x xs ih =>
    simp only [sumSq, List.map_cons, List.sum_cons] at *
    rw [ih, div_mul_div_comm, add_div]

lemma sumSq_l2normalize (v : List ℝ) (hv : sumSq v ≠ 0) :
    sumSq (l2normalize v) = 1 := by
  unfold l2normalize euclNorm
  rw [sumSq_map_div, Real.mul_self_sqrt (sumSq_nonneg v), div_self hv]

lemma euclNorm_l2normalize (v : List ℝ) (hv : sumSq v ≠ 0) :
    euclNorm (l2normalize v) = 1 := by
  rw [euclNorm, sumSq_l2normalize v hv, Real.sqrt_one]

lemma l2normalize_length (v : List ℝ) : (l2normalize v).length = v.length := by
  simp [l2normalize]

lemma processItem_ok {Img Ten : Type} (env : ClipEnv Img Ten) (path : String)
    (emb : List ℝ) (h : processItem env path = Except.ok emb) :
    ∃ features : List ℝ, emb = l2normalize features ∧
      ∃ image inputs, env.openImage path = Except.ok image ∧
        env.preprocess image = Except.ok inputs ∧
        env.getImageFeatures inputs = Except.ok features := by
  cases ho : env.openImage path with
  | error e => simp [processItem, ho] at h
  | ok image =>
    cases hp : env.preprocess image with
    | error e => simp [processItem, ho, hp] at h
    | ok inputs =>
      cases hf : env.getImageFeatures inputs with
      | error e => simp [processItem, ho, hp, hf] at h
      | ok features =>
        simp only [processItem, ho, hp, hf, Except.ok.injEq] at h
        exact ⟨features, h.symm, image, inputs, rfl, hp, hf⟩

/-- C5 (amended): every non-null entry of the output of generate_embeddings
is the raw feature vector returned by the encoder divided by its Euclidean
norm, and has the same length as that raw vector (the model output
dimension); whenever the raw feature vector is not all zero, the entry has
Euclidean norm exactly 1, in particular within tolerance 1/100000 of 1.
The all-zero raw vector is the degenerate division-by-zero edge case in
which the norm condition fails. -/
theorem embeddings_unit_norm {Img Ten : Type} (env : ClipEnv Img Ten)
    (paths : List String) (i : ℕ) (emb : List ℝ)
    (h : (generate_embeddings env paths).get? i = some (some emb)) :
    ∃ features : List ℝ, emb = l2normalize features ∧
      emb.length = features.length ∧
      (sumSq features ≠ 0 →
        euclNorm emb = 1 ∧ |euclNorm emb - 1| ≤ 1 / 100000) := by
  rw [generate_embeddings_get?] at h
  cases hp : paths.get? i with
  | none => rw [hp] at h; simp at h
  | some p =>
    rw [hp] at h
    simp only [Option.map_some'] at h
    have hok : processItem env p = Except.ok emb := by
      cases hpi : processItem env p <;> rw [hpi] at h <;>
        simp [Except.toOption] at h
      rw [h]
    obtain ⟨features, hemb, _, _, _, _, _⟩ := processItem_ok env p emb hok
    refine ⟨features, hemb, by rw [hemb]; exact l2normalize_length features, ?_⟩
    intro hnz
    have h1 : euclNorm emb = 1 := by rw [hemb]; exact euclNorm_l2normalize features hnz
    refine ⟨h1, ?_⟩
    rw [h1]
    norm_num

/-- Witness for C5 (amended) at the concrete environment whose encoder
returns the raw feature row [3, 4] for the one path of the batch. -/
theorem embeddings_unit_norm_witness :
    ∃ features : List ℝ, l2normalize [3, 4] = l2normalize features ∧
      (l2normalize [3, 4]).length = features.length ∧
      (sumSq features ≠ 0 →
        euclNorm (l2normalize [3, 4]) = 1 ∧
        |euclNorm (l2normalize [3, 4]) - 1| ≤ 1 / 100000) :=
  embeddings_unit_norm envGood ["img.jpg"] 0 (l2normalize [3, 4]) rfl

/-- Counterexample to C5 as stated: with an encoder that returns the
all-zero raw feature row [0, 0], the batch ["img.jpg"] yields a non-null
entry, namely [0, 0] divided by its norm, whose Euclidean norm is 0 and
hence not within 1/100000 of 1. -/
theorem zero_features_break_unit_norm :
    (generate_embeddings envZero ["img.jpg"]).get? 0
      = some (some (l2normalize [0, 0])) ∧
    ¬ |euclNorm (l2normalize [0, 0]) - 1| ≤ 1 / 100000 := by
  constructor
  · rfl
  · have h0 : l2normalize ([0, 0] : List ℝ) = [0, 0] := by
      simp [l2normalize]
    rw [h0]
    have h1 : euclNorm ([0, 0] : List ℝ) = 0 := by
      simp [euclNorm, sumSq]
    rw [h1]
    norm_num

/-- C3: when the two embedding vectors have different lengths, the
similarity operation raises the numpy shape error instead of returning a
truncated or padded numeric result; the error is scoped to this request
(the handler is a total function into Except) and does not kill the
process. -/
theorem mismatched_lengths_error (a b : List ℝ) (h : a.length ≠ b.length) :
    calculate_similarity a b = Except.error "shapes not aligned" ∧
    ∀ r : ℝ, calculate_similarity a b ≠ Except.ok r := by
  have hs : calculate_similarity a b = Except.error "shapes not aligned" := by
    simp [calculate_similarity, npDot, h]
  exact ⟨hs, fun r hc => by rw [hs] at hc; cases hc⟩

/-- Witness for C3 at the concrete request of the spec: emb1 = [1, 0] and
emb2 = [0, 1, 0]. -/
theorem mismatched_lengths_error_witness :
    calculate_similarity [1, 0] [0, 1, 0] = Except.error "shapes not aligned" ∧
    ∀ r : ℝ, calculate_similarity [1, 0] [0, 1, 0] ≠ Except.ok r :=
  mismatched_lengths_error [1, 0] [0, 1, 0] (by decide)

/-- C4: get_optimal_device is total by its type, and returns mps exactly
when both the availability check and the built check pass, cuda exactly
when that is not the case and cuda is available, and cpu exactly
otherwise. -/
theorem device_selection_policy (t : TorchEnv) :
    (get_optimal_device t = Device.mps ↔
      (t.mps_is_available = true ∧ t.mps_is_built = true)) ∧
    (get_optimal_device t = Device.cuda ↔
      (¬(t.mps_is_available = true ∧ t.mps_is_built = true) ∧
        t.cuda_is_available = true)) ∧
    (get_optimal_device t = Device.cpu ↔
      (¬(t.mps_is_available = true ∧ t.mps_is_built = true) ∧
        t.cuda_is_available = false)) := by
  obtain ⟨a, b, c, v⟩ := t
  cases a <;> cases b <;> cases c <;> simp [get_optimal_device]

/-- C6: if loading the model or loading the preprocessing transform fails,
startup takes the except branch to sys.exit(1): its result is the nonzero
exit status 1 and never a ServiceState, so no request can ever be served
(handleRequest requires a ServiceState). -/
theorem startup_load_failure_fatal {Img Ten : Type} (env : StartupEnv Img Ten)
    (h : (∃ e, env.fromPretrainedModel = Except.error e) ∨
         (∃ e, env.fromPretrainedProcessor = Except.error e)) :
    startup env = Except.error 1 ∧ (1 : ℕ) ≠ 0 ∧
    ∀ st : ServiceState Img Ten, startup env ≠ Except.ok st := by
  have herr : ∃ e, startupAttempt env = Except.error e := by
    rcases h with ⟨e, he⟩ | ⟨e, he⟩
    · exact ⟨e, by simp [startupAttempt, he]⟩
    · cases hm : env.fromPretrainedModel with
      | error e2 => exact ⟨e2, by simp [startupAttempt, hm]⟩
      | ok m => exact ⟨e, by simp [startupAttempt, hm, he]⟩
  obtain ⟨e, he⟩ := herr
  have hs : startup env = Except.error 1 := by simp [startup, he]
  exact ⟨hs, by norm_num, fun st hc => by rw [hs] at hc; cases hc⟩

/-- Witness for C6 at the concrete startup environment where the model
download fails. -/
theorem startup_load_failure_fatal_witness :
    startup envLoadFails = Except.error 1 ∧ (1 : ℕ) ≠ 0 ∧
    ∀ st : ServiceState Unit Unit, startup envLoadFails ≠ Except.ok st :=
  startup_load_failure_fatal envLoadFails (Or.inl ⟨"network fetch failure", rfl⟩)

/-- C7: for every process state and torch runtime, the health response has
status "healthy" and its device field is one of the three strings mps,
cuda, cpu. -/
theorem health_contract {Img Ten : Type} (t : TorchEnv) (st : ServiceState Img Ten) :
    (health t st).status = "healthy" ∧
    (health t st).device ∈ (["mps", "cuda", "cpu"] : List String) := by
  obtain ⟨d, m, p⟩ := st
  exact ⟨rfl, by cases d <;> simp [health, Device.str]⟩

lemma dotList_comm (a b : List ℝ) : dotList a b = dotList b a := by
  unfold dotList
  rw [List.zipWith_comm_of_comm (fun x y => x * y) mul_comm]

/-- C8: calculate_similarity, the cosine similarity of the service, is
symmetric on vectors of equal length. -/
theorem cosine_similarity_symmetric (a b : List ℝ) (h : a.length = b.length) :
    calculate_similarity a b = calculate_similarity b a := by
  unfold calculate_similarity npDot
  rw [if_pos h, if_pos h.symm, dotList_comm]

/-- Witness for C8 at the concrete vectors [1, 2] and [3, 4]. -/
theorem cosine_similarity_symmetric_witness :
    calculate_similarity [1, 2] [3, 4] = calculate_similarity [3, 4] [1, 2] :=
  cosine_similarity_symmetric [1, 2] [3, 4] rfl

/-- C9: no request handler mutates the process state: after dispatching
any of the three operations, the selected device, the model handle and the
preprocessing transform of the resulting state are those of the initial
state. -/
theorem request_handlers_pure {Img Ten : Type} (pil : String → Except String Img)
    (t : TorchEnv) (st : ServiceState Img Ten) (req : Request) :
    (handleRequest pil t st req).2.device = st.device ∧
    (handleRequest pil t st req).2.model = st.model ∧
    (handleRequest pil t st req).2.processor = st.processor := by
  cases req <;> exact ⟨rfl, rfl, rfl⟩

end SimilarityService
